import Mathlib

/-!
Verification of the orchestration substrate of the AI development pipeline.

The development shallowly embeds the parts of the source that the checked
claims are about:

* the assignment store (`src/agents/assignment_manager.py`): per-agent
  priority queues backed by a sorted set and `(repository, issue)` tracking
  records;
* the worker daemon (`src/agents/worker_daemon.py`): the per-agent worker
  loop body, the QA hand-off, and the drain / auto-deploy check;
* the self-healing generation-CLI envelope (`src/agents/base_agent.py`);
* the pipeline monitor (`src/agents/pipeline_monitor.py`);
* the metadata writer (`src/agents/master_agent.py`);
* the ingress-config updater (`src/agents/deployer.py`).

External collaborators (Redis, the subprocess runner, GitHub, the filesystem)
are modelled by explicit state or by outcome oracles passed as arguments.
Time is passed explicitly (a `now : Nat` parameter) wherever the source reads
the wall clock.
-/

namespace AIPipeline

/-! ## Generic finite-map helper

Redis hashes and the in-memory dictionaries of the daemon are modelled as
total functions updated pointwise. -/

/-- Pointwise update of a function, used to model dictionary / hash writes. -/
def setKey {α β : Type} [DecidableEq α] (f : α → β) (k : α) (v : β) : α → β :=
  fun x => if x = k then v else f x

theorem setKey_same {α β : Type} [DecidableEq α] (f : α → β) (k : α) (v : β) :
    setKey f k v k = v := by
  simp [setKey]

theorem setKey_other {α β : Type} [DecidableEq α] (f : α → β) (k x : α) (v : β)
    (h : x ≠ k) : setKey f k v x = f x := by
  simp [setKey, h]

/-! ## Data model: tasks, queue entries, tracking records

`assignment_manager.py` serializes task dictionaries to JSON strings and
stores them as members of a Redis sorted set.  A member popped from the set
is parsed back with `json.loads`; parsing can fail, so a queue entry is
either a well-formed serialized task or an arbitrary non-task string. -/

/-- A task dictionary as built by `assign_issue` / `assign_pr_review`.
`pr_number = none` models the absence of the `pr_number` key. -/
structure Task where
  task_type : String
  repo_name : String
  issue_number : Nat
  project_path : String
  assigned_at : Nat
  status : String
  assigned_agent : String
  pr_number : Option Nat := none
deriving DecidableEq, Repr

/-- A member of a Redis sorted-set queue: either the serialization of a task
(which `json.loads` recovers) or a string that is not valid JSON. -/
inductive QEntry where
  | ok (t : Task)
  | bad (s : String)
deriving DecidableEq, Repr

/-- The Redis hash at key `assignment:{repo}:{issue}`.  `hset` with a mapping
writes exactly the named fields and leaves the others, so every field is
optional. -/
structure TrackingRecord where
  agent : Option String := none
  status : Option String := none
  assigned_at : Option Nat := none
  claimed_at : Option Nat := none
  completed_at : Option Nat := none
  failed_at : Option Nat := none
  result_summary : Option String := none
  error : Option String := none
deriving DecidableEq, Repr

/-- The state owned by the assignment store: the per-key sorted sets (kept as
lists sorted by ascending score) and the tracking hashes. -/
structure Store where
  queues : String → List (QEntry × Rat)
  tracking : String → Option TrackingRecord

/-- The store with no queued tasks and no tracking records. -/
def emptyStore : Store :=
  { queues := fun _ => [], tracking := fun _ => none }

/-- Key of the per-agent queue, `queue:agent:{agent_type}`. -/
def queueKey (agentType : String) : String :=
  "queue:agent:" ++ agentType

/-- Key of the tracking hash, `assignment:{repo_name}:{issue_number}`. -/
def trackingKey (repo : String) (issue : Nat) : String :=
  "assignment:" ++ repo ++ ":" ++ toString issue

/-- Sorted insertion into the score-ordered member list: the new member goes
after every member with a score less than or equal to its own.  This models
the broker's sorted-set insert for a member not already present. -/
def zaddInsert (l : List (QEntry × Rat)) (m : QEntry) (p : Rat) :
    List (QEntry × Rat) :=
  match l with
  | [] => [(m, p)]
  | (m2, p2) :: rest =>
    if p < p2 then (m, p) :: (m2, p2) :: rest
    else (m2, p2) :: zaddInsert rest m p

/-- Redis `ZADD`: if the member is already present its score is updated,
otherwise it is inserted at the position its score orders it to. -/
def zadd (l : List (QEntry × Rat)) (m : QEntry) (p : Rat) :
    List (QEntry × Rat) :=
  zaddInsert (l.filter (fun e => e.1 ≠ m)) m p

/-- `_get_issue_priority`: the priority of a task is the issue number itself
(lower number = older issue = dispatched earlier), as a float score. -/
def getIssuePriority (_repo : String) (issue : Nat) : Rat :=
  (issue : Rat)

/-- `AssignmentManager.assign_issue` (the Redis effects): serialize the task
dictionary, `ZADD` it onto `queue:agent:{agent_type}` at the issue-derived
priority, and `HSET` the tracking record to `pending` with the assignment
timestamp.  The GitHub comment is an external side effect with no store
state. -/
def assign_issue (s : Store) (repo : String) (issue : Nat) (agentType : String)
    (projectPath : String) (now : Nat) : Store :=
  let task : Task :=
    { task_type := "implement_feature"
      repo_name := repo
      issue_number := issue
      project_path := projectPath
      assigned_at := now
      status := "pending"
      assigned_agent := agentType
      pr_number := none }
  let qk := queueKey agentType
  let priority := getIssuePriority repo issue
  let tk := trackingKey repo issue
  let rec0 := (s.tracking tk).getD {}
  { queues := setKey s.queues qk (zadd (s.queues qk) (QEntry.ok task) priority)
    tracking := setKey s.tracking tk
      (some { rec0 with
                agent := some agentType
                status := some "pending"
                assigned_at := some now }) }

/-- Modelled from the spec: `AssignmentManager.assign_pr_review` is invoked by
`worker_daemon._enqueue_qa_review` and is mocked in
`tests/test_worker_daemon.py`, but its definition is not under `src/`.  Per
the spec's QA hand-off contract, a completed backend/frontend task that
reported a pull request enqueues a QA review task on the QA agent's queue:
task kind `review_pr`, carrying the pull-request identifier and the
originating issue number, with a `pending` tracking record, at the
issue-derived priority. -/
def assign_pr_review (s : Store) (repo : String) (prNumber : Nat) (issue : Nat)
    (projectPath : String) (now : Nat) : Store :=
  let task : Task :=
    { task_type := "review_pr"
      repo_name := repo
      issue_number := issue
      project_path := projectPath
      assigned_at := now
      status := "pending"
      assigned_agent := "qa"
      pr_number := some prNumber }
  let qk := queueKey "qa"
  let priority := getIssuePriority repo issue
  let tk := trackingKey repo issue
  let rec0 := (s.tracking tk).getD {}
  { queues := setKey s.queues qk (zadd (s.queues qk) (QEntry.ok task) priority)
    tracking := setKey s.tracking tk
      (some { rec0 with
                agent := some "qa"
                status := some "pending"
                assigned_at := some now }) }

/-- `AssignmentManager.claim_next_task`: `ZPOPMIN` on the agent's queue (the
head of the score-sorted list); `none` on an empty queue; on a popped member
that parses, the tracking record is moved to `in_progress` with the claim
timestamp and the task is returned; on a popped member that does not parse,
`none` is returned with no tracking write (the member is already gone from
the queue). -/
def claim_next_task (s : Store) (agentType : String) (now : Nat) :
    Option Task × Store :=
  let qk := queueKey agentType
  match s.queues qk with
  | [] => (none, s)
  | (m, _) :: rest =>
    let s1 : Store := { s with queues := setKey s.queues qk rest }
    match m with
    | QEntry.ok task =>
      let tk := trackingKey task.repo_name task.issue_number
      let rec0 := (s1.tracking tk).getD {}
      (some task,
        { s1 with
            tracking := setKey s1.tracking tk
              (some { rec0 with
                        status := some "in_progress"
                        claimed_at := some now }) })
    | QEntry.bad _ => (none, s1)

/-- `AssignmentManager.complete_task`: `HSET` status `completed`, the
completion timestamp, and the serialized result truncated to 500
characters. -/
def complete_task (s : Store) (repo : String) (issue : Nat) (result : String)
    (now : Nat) : Store :=
  let tk := trackingKey repo issue
  let rec0 := (s.tracking tk).getD {}
  { s with
      tracking := setKey s.tracking tk
        (some { rec0 with
                  status := some "completed"
                  completed_at := some now
                  result_summary := some (result.take 500) }) }

/-- `AssignmentManager.fail_task`: `HSET` status `failed`, the failure
timestamp, and the error truncated to 500 characters. -/
def fail_task (s : Store) (repo : String) (issue : Nat) (error : String)
    (now : Nat) : Store :=
  let tk := trackingKey repo issue
  let rec0 := (s.tracking tk).getD {}
  { s with
      tracking := setKey s.tracking tk
        (some { rec0 with
                  status := some "failed"
                  failed_at := some now
                  error := some (error.take 500) }) }

/-- `ZCARD` of the agent's queue, as reported by `get_queue_status`. -/
def queue_depth (s : Store) (agentType : String) : Nat :=
  (s.queues (queueKey agentType)).length

/-- The status field of the tracking record for `(repo, issue)`, as read by
`get_assignment_status`. -/
def assignment_status (s : Store) (repo : String) (issue : Nat) :
    Option String :=
  ((s.tracking (trackingKey repo issue)).getD {}).status

/-- A queue is well-formed when its member list is sorted by ascending
score — the invariant the broker maintains and `zaddInsert` preserves. -/
def queueSorted (l : List (QEntry × Rat)) : Prop :=
  l.Pairwise (fun e f => e.2 ≤ f.2)

instance (l : List (QEntry × Rat)) : Decidable (queueSorted l) := by
  unfold queueSorted; infer_instance

theorem zaddInsert_mem_of_mem (l : List (QEntry × Rat)) (m : QEntry) (p : Rat)
    (f : QEntry × Rat) (hf : f ∈ zaddInsert l m p) :
    f = (m, p) ∨ f ∈ l := by
  induction l with
  | nil => simpa [zaddInsert] using hf
  | cons e2 rest2 ih2 =>
    rcases e2 with ⟨m3, p3⟩
    by_cases hp : p < p3
    · simp only [zaddInsert, if_pos hp] at hf
      rcases List.mem_cons.mp hf with rfl | hf2
      · exact Or.inl rfl
      · exact Or.inr hf2
    · simp only [zaddInsert, if_neg hp] at hf
      rcases List.mem_cons.mp hf with rfl | hf2
      · exact Or.inr (List.mem_cons_self _ _)
      · rcases ih2 hf2 with rfl | hf3
        · exact Or.inl rfl
        · exact Or.inr (List.mem_cons_of_mem _ hf3)

theorem zaddInsert_sorted (l : List (QEntry × Rat)) (m : QEntry) (p : Rat)
    (h : queueSorted l) : queueSorted (zaddInsert l m p) := by
  induction l with
  | nil => simp [zaddInsert, queueSorted]
  | cons e rest ih =>
    rcases e with ⟨m2, p2⟩
    rcases List.pairwise_cons.mp h with ⟨hall, hrest⟩
    by_cases hp : p < p2
    · simp only [zaddInsert, if_pos hp]
      refine List.pairwise_cons.mpr ⟨?_, h⟩
      intro f hf
      rcases List.mem_cons.mp hf with rfl | hf2
      · exact le_of_lt hp
      · exact le_trans (le_of_lt hp) (hall f hf2)
    · simp only [zaddInsert, if_neg hp]
      refine List.pairwise_cons.mpr ⟨?_, ih hrest⟩
      intro f hf
      rcases zaddInsert_mem_of_mem rest m p f hf with rfl | hf2
      · exact le_of_not_lt hp
      · exact hall f hf2

/-! ## Worker daemon (`src/agents/worker_daemon.py`)

One loop per agent type.  The model covers one iteration of the loop body in
which a task may be claimed and executed; `execute_task` is an external
collaborator passed in as a function from the task to its outcome. -/

/-- The result dictionary returned by `execute_task` on success: its
serialized form (stored by `complete_task`) and the optional `pr_number`
field.  `some 0` models the Python-falsy value `0`. -/
structure TaskResult where
  summary : String
  pr_number : Option Nat := none
deriving DecidableEq, Repr

/-- Outcome of `agent.execute_task(task)`: a result dictionary or a raised
exception with its message. -/
inductive ExecOutcome where
  | ok (result : TaskResult)
  | err (msg : String)
deriving DecidableEq, Repr

/-- The agent types the daemon runs workers for (the `WORKER_AGENTS`
default). -/
def workerAgents : List String :=
  ["backend", "frontend", "database", "devops", "qa"]

/-- The daemon's mutable state: the assignment store it talks to, the
per-agent worker states, the `_all_tasks_done_notified` flag, and an
instrumentation counter of `_auto_deploy` invocations. -/
structure Daemon where
  store : Store
  workerStates : String → String
  notified : Bool
  deployCount : Nat

/-- `_all_queues_empty`: every agent queue reported by `get_queue_status`
has zero pending tasks. -/
def allQueuesEmpty (d : Daemon) : Bool :=
  workerAgents.all (fun a => queue_depth d.store a = 0)

/-- `_all_workers_idle`: every worker state is `idle`, `polling`, or
`stopped`. -/
def allWorkersIdle (d : Daemon) : Bool :=
  workerAgents.all (fun a =>
    d.workerStates a = "idle" || d.workerStates a = "polling" ||
      d.workerStates a = "stopped")

/-- The drain condition checked by `_check_and_trigger_deploy`. -/
def drained (d : Daemon) : Bool :=
  allQueuesEmpty d && allWorkersIdle d

/-- `_check_and_trigger_deploy`: on a drained observation with the flag
clear, set the flag and fire `_auto_deploy`; on a drained observation with
the flag set, do nothing; on a non-drained observation, clear the flag. -/
def checkAndTriggerDeploy (d : Daemon) : Daemon :=
  if drained d then
    if d.notified then d
    else { d with notified := true, deployCount := d.deployCount + 1 }
  else
    { d with notified := false }

/-- The success path of the worker loop body (lines 123–144 of
`worker_daemon.py`): mark the task complete in Redis, sync GitHub
(external), and — for a backend or frontend worker whose result carries a
truthy `pr_number` — enqueue a QA review task. -/
def completeAndMaybeEnqueueQA (s : Store) (agentType : String) (task : Task)
    (result : TaskResult) (now : Nat) : Store :=
  let s1 := complete_task s task.repo_name task.issue_number result.summary now
  if agentType = "backend" ∨ agentType = "frontend" then
    match result.pr_number with
    | some pr =>
      if pr ≠ 0 then
        assign_pr_review s1 task.repo_name pr task.issue_number
          task.project_path now
      else s1
    | none => s1
  else s1

/-- One iteration of `run_worker`'s loop body for one agent type: set state
`polling`, claim the next task; on an empty queue set state `idle` and sleep
(no drain check); on a claimed task set state `working`, execute it, record
completion or failure, set state `idle`, and run the drain check. -/
def runWorkerIteration (d : Daemon) (agentType : String)
    (exec : Task → ExecOutcome) (now : Nat) : Daemon :=
  let d0 : Daemon :=
    { d with workerStates := setKey d.workerStates agentType "polling" }
  match claim_next_task d0.store agentType now with
  | (none, s1) =>
    { d0 with
        store := s1
        workerStates := setKey d0.workerStates agentType "idle" }
  | (some task, s1) =>
    let d1 : Daemon :=
      { d0 with
          store := s1
          workerStates := setKey d0.workerStates agentType "working" }
    let d2 : Daemon :=
      match exec task with
      | ExecOutcome.ok result =>
        { d1 with
            store := completeAndMaybeEnqueueQA d1.store agentType task result
              now }
      | ExecOutcome.err msg =>
        { d1 with
            store := fail_task d1.store task.repo_name task.issue_number msg
              now }
    let d3 : Daemon :=
      { d2 with workerStates := setKey d2.workerStates agentType "idle" }
    checkAndTriggerDeploy d3

/-! ### Drain-flag trace semantics

`_check_and_trigger_deploy` reduces, on the boolean level, to a step
function of the flag and the drained observation.  Folding it over the
drained observations of the successive checks counts the hook firings. -/

/-- The flag/firing step extracted from `_check_and_trigger_deploy`:
given the current flag and the drained observation, return the new flag and
whether the hook fired. -/
def drainStep (flag : Bool) (drainedObs : Bool) : Bool × Bool :=
  if drainedObs then (true, !flag) else (false, false)

/-- Fold `drainStep` over a list of drained observations, returning the
final flag and the number of hook firings. -/
def drainRun : Bool → List Bool → Bool × Nat
  | flag, [] => (flag, 0)
  | flag, b :: rest =>
    let step := drainStep flag b
    let next := drainRun step.1 rest
    (next.1, (if step.2 then 1 else 0) + next.2)

/-- Number of maximal blocks of consecutive `true` observations, given the
value preceding the list. -/
def countBlocksFrom (prev : Bool) : List Bool → Nat
  | [] => 0
  | b :: rest => (if b && !prev then 1 else 0) + countBlocksFrom b rest

/-- Number of maximal blocks of consecutive `true` observations. -/
def countBlocks (l : List Bool) : Nat :=
  countBlocksFrom false l

theorem drainRun_eq_countBlocksFrom (flag : Bool) (l : List Bool) :
    (drainRun flag l).2 = countBlocksFrom flag l := by
  induction l generalizing flag with
  | nil => rfl
  | cons b rest ih =>
    cases b <;> cases flag <;>
      simp [drainRun, drainStep, countBlocksFrom, ih]

/-! ## Error classification and the self-healing envelope
(`src/agents/base_agent.py`, `src/utils/error_handlers.py`) -/

/-- Case-insensitive substring test over the characters of two strings
(executable, structural recursion). -/
def isPrefixCh : List Char → List Char → Bool
  | [], _ => true
  | _ :: _, [] => false
  | p :: ps, h :: hs => p = h && isPrefixCh ps hs

/-- Whether `pat` occurs as a contiguous sublist of `hay`. -/
def containsCh (hay pat : List Char) : Bool :=
  match hay with
  | [] => isPrefixCh pat []
  | _ :: rest => isPrefixCh pat hay || containsCh rest pat

/-- Whether `pat` occurs in `hay`, after lower-casing `hay` (the patterns
used below are already lower-case). -/
def containsSub (hay pat : String) : Bool :=
  containsCh (hay.data.map Char.toLower) pat.data

/-- Modelled from the spec: `classify_claude_error` is imported from
`utils.error_handlers` by `BaseAgent._diagnose_and_fix` and exercised by
`tests/test_self_healing.py`, but its definition is not under `src/`.  Per
the spec's Error Classifier contract it is a pure function from an error
string to one of `rate_limit`, `import_error`, `auth_error`,
`file_not_found`, `permission`, `generic`, decided by case-insensitive
substring and numeric-code checks, with rate-limit checked before generic
and auth before permission. -/
def classify_claude_error (errorOutput : String) : String :=
  if containsSub errorOutput "rate limit" || containsSub errorOutput "429" then
    "rate_limit"
  else if containsSub errorOutput "modulenotfounderror" ||
      containsSub errorOutput "importerror" then
    "import_error"
  else if containsSub errorOutput "401" ||
      containsSub errorOutput "authentication" ||
      containsSub errorOutput "not authenticated" ||
      containsSub errorOutput "api key" then
    "auth_error"
  else if containsSub errorOutput "filenotfounderror" ||
      containsSub errorOutput "no such file" then
    "file_not_found"
  else if containsSub errorOutput "permission" then
    "permission"
  else
    "generic"

/-- The dictionary returned by `_run_claude_subprocess` on success. -/
structure CCResult where
  stdout : String
  stderr : String
  return_code : Int
  success : Bool
  duration : Nat
deriving DecidableEq, Repr

/-- Outcome of one generation-CLI subprocess invocation, as supplied by the
external CLI: a result dictionary (exit code 0) or a raised
`ClaudeCodeError` with its message (non-zero exit or timeout). -/
inductive CCOutcome where
  | ok (r : CCResult)
  | fail (err : String)
deriving Repr

/-- Instrumented state threaded through `call_claude_code`: the index of the
next oracle outcome to consume, the `_is_healing` flag, the number of main
subprocess invocations, the number of diagnose-and-fix subprocess
invocations, and the backoff delays slept (in seconds). -/
structure CCState where
  idx : Nat
  healing : Bool
  mainCalls : Nat
  diagCalls : Nat
  sleeps : List Nat
deriving DecidableEq, Repr

/-- `BaseAgent._diagnose_and_fix`: return immediately when already healing;
classify the error and return without any subprocess call when the kind is
`auth_error` or `permission`; otherwise set the healing flag, run one
diagnosis subprocess call (its outcome is logged and swallowed), and clear
the flag in the `finally` block. -/
def diagnose_and_fix (st : CCState) (errOutput : String) : CCState :=
  if st.healing then st
  else if classify_claude_error errOutput = "auth_error" ∨
      classify_claude_error errOutput = "permission" then st
  else
    { st with idx := st.idx + 1, diagCalls := st.diagCalls + 1 }

/-- State accounting of one subprocess invocation: consume the next oracle
outcome and count a main call. -/
def ccBump (st : CCState) : CCState :=
  { st with idx := st.idx + 1, mainCalls := st.mainCalls + 1 }

/-- The state change of one failed attempt in `call_claude_code`: account
the main subprocess invocation, then run `_diagnose_and_fix` unless the
healing flag is already set. -/
def ccFailStep (st : CCState) (e : String) : CCState :=
  if (ccBump st).healing then ccBump st
  else diagnose_and_fix (ccBump st) e

/-- Record the backoff delay `2 * 2 ^ attempt` slept before the retry. -/
def ccSleep (st : CCState) (attempt : Nat) : CCState :=
  { st with sleeps := st.sleeps ++ [2 * 2 ^ attempt] }

/-- The retry loop of `BaseAgent.call_claude_code` (`max_retries = 3`).
`env` is the oracle of subprocess outcomes, consumed one per invocation.
Each attempt runs the main subprocess; on success the result is returned;
on a `ClaudeCodeError`, `_diagnose_and_fix` runs (unless already healing),
then the loop sleeps `2 * 2 ^ attempt` seconds and retries while attempts
remain, and re-raises the last error once all three are spent. -/
def ccAttempt (env : Nat → CCOutcome) :
    Nat → Nat → CCState → Except String CCResult × CCState
  | 0, _, st => (Except.error "", st)
  | fuel + 1, attempt, st =>
    match env st.idx with
    | CCOutcome.ok res => (Except.ok res, ccBump st)
    | CCOutcome.fail e =>
      if attempt < 2 then
        ccAttempt env fuel (attempt + 1) (ccSleep (ccFailStep st e) attempt)
      else
        (Except.error e, ccFailStep st e)

/-- `BaseAgent.call_claude_code`: the self-healing envelope, entered with a
fresh oracle position and the healing flag clear. -/
def call_claude_code (env : Nat → CCOutcome) :
    Except String CCResult × CCState :=
  ccAttempt env 3 0 { idx := 0, healing := false, mainCalls := 0,
                      diagCalls := 0, sleeps := [] }

/-! ## Pipeline monitor (`src/agents/pipeline_monitor.py`) -/

/-- The latest workflow run as returned by the GitHub client:
`conclusion = none` models the JSON `null` of an unfinished run. -/
structure RunInfo where
  id : Nat
  status : String
  conclusion : Option String
deriving DecidableEq, Repr

/-- Notification tags emitted through `_notify` (abbreviating the message
texts of `pipeline_monitor.py`). -/
inductive Notice where
  | attemptDiag (runId attempt : Nat)
  | needsAttention (runId : Nat)
  | ciGreen
  | diagnosisFailed
  | cannotPush
  | fixPushed
  | pushFailed
deriving DecidableEq, Repr

/-- Monitor state: the per-run fix-attempt counts (`_fix_attempts`, with 0
for an absent key), the handled-run set, the notification log, and
instrumentation counters for generation-CLI calls and push attempts. -/
structure Monitor where
  fixAttempts : Nat → Nat
  handledRuns : List Nat
  notices : List Notice
  cliCalls : Nat
  pushAttempts : Nat

/-- `MAX_FIX_ATTEMPTS`. -/
def MAX_FIX_ATTEMPTS : Nat := 3

/-- Environment of one observation: whether the generation-CLI fix call
succeeds, whether `GITHUB_TOKEN`/`GITHUB_USERNAME`/project path are all
set, and whether the push succeeds. -/
structure CIEnv where
  cliOk : Bool
  credsOk : Bool
  pushOk : Bool
deriving DecidableEq, Repr

/-- `PipelineMonitor._handle_ci_failure`: increment the attempt count,
notify, fetch logs (external), invoke the generation CLI; on CLI failure
notify and stop; without credentials notify and stop; otherwise attempt the
push, and on a successful push mark the run handled. -/
def handle_ci_failure (m : Monitor) (runId : Nat) (env : CIEnv) : Monitor :=
  let attempt := m.fixAttempts runId + 1
  let m1 : Monitor :=
    { m with
        fixAttempts := setKey m.fixAttempts runId attempt
        notices := m.notices ++ [Notice.attemptDiag runId attempt] }
  let m2 : Monitor := { m1 with cliCalls := m1.cliCalls + 1 }
  if !env.cliOk then
    { m2 with notices := m2.notices ++ [Notice.diagnosisFailed] }
  else if !env.credsOk then
    { m2 with notices := m2.notices ++ [Notice.cannotPush] }
  else
    let m3 : Monitor := { m2 with pushAttempts := m2.pushAttempts + 1 }
    if env.pushOk then
      { m3 with
          handledRuns := runId :: m3.handledRuns
          notices := m3.notices ++ [Notice.fixPushed] }
    else
      { m3 with notices := m3.notices ++ [Notice.pushFailed] }

/-- `PipelineMonitor._check_ci_status` acting on the latest observed run:
skip handled runs and unfinished runs; on a completed failure either
delegate to `_handle_ci_failure` (attempts below `MAX_FIX_ATTEMPTS`) or mark
the run handled with a needs-attention notification; on a completed success
mark handled and notify green when a fix had been attempted. -/
def check_ci_status (m : Monitor) (run : RunInfo) (env : CIEnv) : Monitor :=
  if run.id ∈ m.handledRuns then m
  else if run.status ≠ "completed" then m
  else if run.conclusion = some "failure" then
    if m.fixAttempts run.id ≥ MAX_FIX_ATTEMPTS then
      { m with
          handledRuns := run.id :: m.handledRuns
          notices := m.notices ++ [Notice.needsAttention run.id] }
    else
      handle_ci_failure m run.id env
  else if run.conclusion = some "success" then
    { m with
        handledRuns := run.id :: m.handledRuns
        notices :=
          m.notices ++ (if m.fixAttempts run.id ≠ 0 then [Notice.ciGreen] else []) }
  else m

/-- The monitor's initial state. -/
def monitorInit : Monitor :=
  { fixAttempts := fun _ => 0, handledRuns := [], notices := [],
    cliCalls := 0, pushAttempts := 0 }

/-! ## Metadata persistence (`src/agents/master_agent.py`) -/

/-- `MasterAgent.save_project_metadata` opens the metadata file with mode
`w` and streams `json.dump` into it.  Opening with `w` truncates the file
first, so the sequence of file contents a concurrent reader can observe is:
the truncated (empty) file, then the fully written new record.  The file is
modelled as `Option String` (`none` = absent). -/
def writeDirect (_old : Option String) (newContent : String) :
    List (Option String) :=
  [some "", some newContent]

/-- Modelled from the spec: the write-to-temp-then-rename persistence the
spec prescribes for project metadata.  The temporary file is written aside,
so until the atomic rename the target file still holds its previous
contents, and after it the new record; those are the only observable
states. -/
def writeAtomic (old : Option String) (newContent : String) :
    List (Option String) :=
  [old, some newContent]

/-! ## Ingress-config updater (`src/agents/deployer.py`) -/

/-- One element of the `ingress` list of `~/.cloudflared/config.yml`.
`hostname = none` models a YAML mapping without a `hostname` key (the
catch-all shape). -/
structure IngressEntry where
  hostname : Option String
  service : String
deriving DecidableEq, Repr

/-- The catch-all rule appended when absent. -/
def catchAll404 : IngressEntry :=
  { hostname := none, service := "http_status:404" }

/-- The parsed `config.yml`. -/
structure CfConfig where
  tunnel : String
  credentials_file : String
  ingress : List IngressEntry
deriving DecidableEq, Repr

/-- Insertion at an index (Python `list.insert`; an index past the end
appends). -/
def insertAt (l : List IngressEntry) (i : Nat) (e : IngressEntry) :
    List IngressEntry :=
  match i, l with
  | 0, l => e :: l
  | _ + 1, [] => [e]
  | n + 1, x :: xs => x :: insertAt xs n e

/-- The fresh ingress entry `_update_cloudflared_config` builds for a
hostname and port. -/
def newIngressEntry (hostname : String) (port : Nat) : IngressEntry :=
  { hostname := some hostname
    service := "http://localhost:" ++ toString port }

/-- Index of the first entry without a `hostname` key, or the list length
when every entry has one — the Python
`next((i for i, e in enumerate(ingress) if "hostname" not in e),
len(ingress))`. -/
def findCatchAllIdx : List IngressEntry → Nat
  | [] => 0
  | e :: rest =>
    if e.hostname.isNone then 0 else 1 + findCatchAllIdx rest

/-- The ingress-list mutation at the heart of `_update_cloudflared_config`:
drop any stale entry for the hostname, insert the new
`(hostname, http://localhost:{port})` entry immediately before the first
entry without a `hostname` key (or at the end), and append the catch-all if
no entry without a `hostname` key remains. -/
def updateIngress (ingress : List IngressEntry) (hostname : String)
    (port : Nat) : List IngressEntry :=
  let cleaned := ingress.filter (fun e => e.hostname ≠ some hostname)
  let inserted :=
    insertAt cleaned (findCatchAllIdx cleaned) (newIngressEntry hostname port)
  if inserted.any (fun e => e.hostname.isNone) then inserted
  else inserted ++ [catchAll404]

/-- `_update_cloudflared_config`: load the config (or create it from the
`CLOUDFLARE_TUNNEL_ID` environment variable when the file does not exist),
apply the ingress mutation, and write the file back. -/
def update_cloudflared_config (file : Option CfConfig) (tunnelId : String)
    (hostname : String) (port : Nat) : CfConfig :=
  let config :=
    match file with
    | some c => c
    | none =>
      { tunnel := tunnelId
        credentials_file := "~/.cloudflared/" ++ tunnelId ++ ".json"
        ingress := [] }
  { config with ingress := updateIngress config.ingress hostname port }

/-- Well-formedness of an ingress list per the documented file format: the
final entry is the catch-all (no `hostname` key) and every earlier entry
names a hostname. -/
def wfIngress (l : List IngressEntry) : Prop :=
  ∃ hs c, l = hs ++ [c] ∧ c.hostname = none ∧
    ∀ e ∈ hs, (e.hostname).isSome

/-! ## Assignment-store operation alphabet

Used to state which later store operations can move a tracking record, once
terminal, out of its terminal state. -/

/-- The mutating operations of `AssignmentManager`. -/
inductive StoreOp where
  | assignOp (repo : String) (issue : Nat) (agentType : String)
      (path : String) (now : Nat)
  | reviewOp (repo : String) (pr : Nat) (issue : Nat) (path : String)
      (now : Nat)
  | claimOp (agentType : String) (now : Nat)
  | completeOp (repo : String) (issue : Nat) (result : String) (now : Nat)
  | failOp (repo : String) (issue : Nat) (error : String) (now : Nat)

/-- Interpretation of a store operation. -/
def applyOp (s : Store) : StoreOp → Store
  | StoreOp.assignOp r i a p n => assign_issue s r i a p n
  | StoreOp.reviewOp r pr i p n => assign_pr_review s r pr i p n
  | StoreOp.claimOp a n => (claim_next_task s a n).2
  | StoreOp.completeOp r i res n => complete_task s r i res n
  | StoreOp.failOp r i e n => fail_task s r i e n

/-- A tracking status is terminal when it is `completed` or `failed`. -/
def isTerminal (st : Option String) : Prop :=
  st = some "completed" ∨ st = some "failed"

instance (st : Option String) : Decidable (isTerminal st) := by
  unfold isTerminal; infer_instance

/-- Whether an operation on store `s` (re)writes the tracking record keyed
by `(repo, issue)` to a non-terminal status: a fresh assignment or QA-review
enqueue for that key, or a claim that pops a task with that key. -/
def opTargets (s : Store) (op : StoreOp) (repo : String) (issue : Nat) :
    Prop :=
  match op with
  | StoreOp.assignOp r i _ _ _ => trackingKey r i = trackingKey repo issue
  | StoreOp.reviewOp r _ i _ _ => trackingKey r i = trackingKey repo issue
  | StoreOp.claimOp a n =>
    ∃ t, (claim_next_task s a n).1 = some t ∧
      trackingKey t.repo_name t.issue_number = trackingKey repo issue
  | StoreOp.completeOp _ _ _ _ => False
  | StoreOp.failOp _ _ _ _ => False

/-! ## Concrete scenarios from the spec's seed tests -/

/-- S1: backend tasks for issues 7, 3, 12 at priorities 7.0, 3.0, 12.0. -/
def c4store1 : Store := assign_issue emptyStore "acme" 7 "backend" "" 0

def c4store2 : Store := assign_issue c4store1 "acme" 3 "backend" "" 1

def c4store3 : Store := assign_issue c4store2 "acme" 12 "backend" "" 2

def c4claim1 : Option Task × Store := claim_next_task c4store3 "backend" 10

def c4claim2 : Option Task × Store := claim_next_task c4claim1.2 "backend" 11

def c4claim3 : Option Task × Store := claim_next_task c4claim2.2 "backend" 12

def c4claim4 : Option Task × Store := claim_next_task c4claim3.2 "backend" 13

/-- S2: the backend task for `(repo=acme, issue=5)`. -/
def c1Task : Task :=
  { task_type := "implement_feature"
    repo_name := "acme"
    issue_number := 5
    project_path := ""
    assigned_at := 0
    status := "pending"
    assigned_agent := "backend"
    pr_number := none }

/-- S2: the backend result reporting `pr_number = 42`. -/
def c1Result : TaskResult :=
  { summary := "done", pr_number := some 42 }

/-- An `execute_task` stub that succeeds without opening a pull request. -/
def execPlain : Task → ExecOutcome :=
  fun _ => ExecOutcome.ok { summary := "done", pr_number := none }

/-- S4: daemon with two queued backend tasks, all workers idle, hook not yet
fired. -/
def c5daemon0 : Daemon :=
  { store := assign_issue (assign_issue emptyStore "acme" 1 "backend" "" 0)
      "acme" 2 "backend" "" 0
    workerStates := fun _ => "idle"
    notified := false
    deployCount := 0 }

/-- S4: after the first task completes (the second is still queued at the
drain check). -/
def c5daemon1 : Daemon := runWorkerIteration c5daemon0 "backend" execPlain 5

/-- S4: after the second task completes (every queue empty at the drain
check). -/
def c5daemon2 : Daemon := runWorkerIteration c5daemon1 "backend" execPlain 6

/-- S4: a third task enqueued after the deploy fired. -/
def c5daemon2e : Daemon :=
  { c5daemon2 with store := assign_issue c5daemon2.store "acme" 3 "backend" "" 7 }

/-- S4: after the third task completes. -/
def c5daemon3 : Daemon := runWorkerIteration c5daemon2e "backend" execPlain 8

/-- S5: run 100 observed completed with conclusion `failure`. -/
def c6run : RunInfo :=
  { id := 100, status := "completed", conclusion := some "failure" }

/-- S5: environment where the CLI fix succeeds but the push fails, so the
same run keeps being re-observed as failing. -/
def c6env : CIEnv :=
  { cliOk := true, credsOk := true, pushOk := false }

def c6m1 : Monitor := check_ci_status monitorInit c6run c6env

def c6m2 : Monitor := check_ci_status c6m1 c6run c6env

def c6m3 : Monitor := check_ci_status c6m2 c6run c6env

def c6m4 : Monitor := check_ci_status c6m3 c6run c6env

def c6m5 : Monitor := check_ci_status c6m4 c6run c6env

/-- C7 scenario: assign, claim and complete issue 5, then assign it again. -/
def c7s0 : Store := assign_issue emptyStore "acme" 5 "backend" "" 0

def c7s1 : Store := (claim_next_task c7s0 "backend" 1).2

def c7s2 : Store := complete_task c7s1 "acme" 5 "res" 2

def c7s3 : Store := assign_issue c7s2 "acme" 5 "backend" "" 9

/-- C9 scenario: a config whose ingress holds two hostnames and the
catch-all. -/
def c9ingress : List IngressEntry :=
  [{ hostname := some "a.example.com", service := "http://localhost:3000" },
   { hostname := some "b.example.com", service := "http://localhost:4000" },
   catchAll404]

/-- S6: first update, starting from a missing `config.yml` with tunnel id
`abc`. -/
def c9cfg1 : CfConfig :=
  update_cloudflared_config none "abc" "alpha.example.com" 3000

/-- S6: second update of the same hostname with port 3001. -/
def c9cfg2 : CfConfig :=
  update_cloudflared_config (some c9cfg1) "abc" "alpha.example.com" 3001

/-- C10 scenario: a backend queue whose head member is not valid JSON. -/
def c10store : Store :=
  { queues := setKey (fun _ => []) (queueKey "backend")
      [(QEntry.bad "not json", (1 : Rat))]
    tracking := fun _ => none }

/-! # Theorems -/

/-- Claim C4: for every agent kind, `claim_next` atomically pops the
lowest-priority member of that agent's priority queue, updates the tracking
record of the popped task's `(repository, issue)` to `in_progress` with a
claim timestamp, and returns the task; on an empty queue it returns
nothing.  Concretely, after enqueuing backend tasks for issues 7, 3, 12
with priorities 7.0, 3.0, 12.0, successive `claim_next("backend")` calls
return issue 3, then 7, then 12, then nothing. -/
theorem c4_claim_next_pops_min :
    (∀ (s : Store) (a : String) (now : Nat),
      s.queues (queueKey a) = [] → claim_next_task s a now = (none, s)) ∧
    (∀ (s : Store) (a : String) (now : Nat) (t : Task) (p : Rat)
        (rest : List (QEntry × Rat)),
      s.queues (queueKey a) = (QEntry.ok t, p) :: rest →
      queueSorted (s.queues (queueKey a)) →
      (claim_next_task s a now).1 = some t ∧
      (∀ e ∈ s.queues (queueKey a), p ≤ e.2) ∧
      (claim_next_task s a now).2.queues (queueKey a) = rest ∧
      assignment_status (claim_next_task s a now).2 t.repo_name
          t.issue_number = some "in_progress" ∧
      (((claim_next_task s a now).2.tracking
          (trackingKey t.repo_name t.issue_number)).getD {}).claimed_at
        = some now) ∧
    (c4claim1.1.map Task.issue_number = some 3 ∧
     c4claim2.1.map Task.issue_number = some 7 ∧
     c4claim3.1.map Task.issue_number = some 12 ∧
     c4claim4.1 = none ∧
     assignment_status c4claim1.2 "acme" 3 = some "in_progress") := by
  refine ⟨?_, ?_, ?_⟩
  · intro s a now h
    simp [claim_next_task, h]
  · intro s a now t p rest h hsorted
    rw [h] at hsorted
    rcases List.pairwise_cons.mp hsorted with ⟨hall, _⟩
    refine ⟨?_, ?_, ?_, ?_, ?_⟩
    · simp [claim_next_task, h]
    · intro e he
      rw [h] at he
      rcases List.mem_cons.mp he with rfl | he2
      · exact le_refl _
      · exact hall e he2
    · simp [claim_next_task, h, setKey_same]
    · simp [claim_next_task, h, assignment_status, setKey_same]
    · simp [claim_next_task, h, setKey_same]
  · decide

/-- Claim C4, witness: the general parts applied to the concrete S1 store,
whose backend queue head is the issue-3 task at priority 3. -/
theorem c4_claim_next_pops_min_witness :
    claim_next_task emptyStore "backend" 0 = (none, emptyStore) ∧
    (claim_next_task c4store3 "backend" 10).1.map Task.issue_number
      = some 3 := by
  constructor
  · exact c4_claim_next_pops_min.1 emptyStore "backend" 0 rfl
  · have h :=
      (c4_claim_next_pops_min.2.1 c4store3 "backend" 10
        { task_type := "implement_feature"
          repo_name := "acme"
          issue_number := 3
          project_path := ""
          assigned_at := 1
          status := "pending"
          assigned_agent := "backend"
          pr_number := none }
        3 [(QEntry.ok
            { task_type := "implement_feature"
              repo_name := "acme"
              issue_number := 7
              project_path := ""
              assigned_at := 0
              status := "pending"
              assigned_agent := "backend"
              pr_number := none }, 7),
           (QEntry.ok
            { task_type := "implement_feature"
              repo_name := "acme"
              issue_number := 12
              project_path := ""
              assigned_at := 2
              status := "pending"
              assigned_agent := "backend"
              pr_number := none }, 12)]
        (by decide) (by decide)).1
    rw [h]
    rfl

/-- Claim C10: if the member popped by `claim_next` from a non-empty agent
queue is not valid JSON, `claim_next` returns nothing (indistinguishable
from an empty queue), the popped member is permanently removed from the
queue, and no tracking record is created or updated — the task is lost
without an error being raised or a failure recorded. -/
theorem c10_bad_entry_dropped :
    ∀ (s : Store) (a : String) (now : Nat) (str : String) (p : Rat)
      (rest : List (QEntry × Rat)),
      s.queues (queueKey a) = (QEntry.bad str, p) :: rest →
      (claim_next_task s a now).1 = none ∧
      (claim_next_task s a now).2.queues (queueKey a) = rest ∧
      (∀ k, k ≠ queueKey a →
        (claim_next_task s a now).2.queues k = s.queues k) ∧
      (claim_next_task s a now).2.tracking = s.tracking := by
  intro s a now str p rest h
  refine ⟨?_, ?_, ?_, ?_⟩
  · simp [claim_next_task, h]
  · simp [claim_next_task, h, setKey_same]
  · intro k hk
    simp [claim_next_task, h, setKey_other _ _ _ _ hk]
  · simp [claim_next_task, h]

/-- Claim C10, witness: the backend queue of `c10store` holds exactly one
member, which is not valid JSON; claiming drops it silently. -/
theorem c10_bad_entry_dropped_witness :
    (claim_next_task c10store "backend" 7).1 = none ∧
    (claim_next_task c10store "backend" 7).2.queues (queueKey "backend")
      = [] ∧
    (claim_next_task c10store "backend" 7).2.tracking
      = c10store.tracking := by
  have h := c10_bad_entry_dropped c10store "backend" 7 "not json" 1 [] rfl
  exact ⟨h.1, h.2.1, h.2.2.2⟩

/-- Claim C1: for every backend or frontend task whose execution completes
with a result carrying a non-empty pull-request identifier, a QA review
task is enqueued on the QA agent's queue immediately after completion:
`queue_depth("qa")` increases by one (from an empty QA queue, to one), and
a subsequent `claim_next("qa")` returns a task with task kind `review_pr`
carrying that pull-request identifier and the originating issue number.
The enqueue routes through `assign_pr_review`, which is modelled from the
spec (its definition is not under `src/`). -/
theorem c1_qa_handoff (s : Store) (agentType : String) (task : Task)
    (result : TaskResult) (now : Nat) (pr : Nat)
    (hAgent : agentType = "backend" ∨ agentType = "frontend")
    (hPr : result.pr_number = some pr) (hPrPos : pr ≠ 0)
    (hEmpty : s.queues (queueKey "qa") = []) :
    queue_depth (completeAndMaybeEnqueueQA s agentType task result now) "qa"
      = queue_depth s "qa" + 1 ∧
    ∃ t, (claim_next_task
        (completeAndMaybeEnqueueQA s agentType task result now) "qa"
        (now + 1)).1 = some t ∧
      t.task_type = "review_pr" ∧ t.pr_number = some pr ∧
      t.issue_number = task.issue_number ∧
      t.repo_name = task.repo_name := by
  have hq : (completeAndMaybeEnqueueQA s agentType task result now).queues
      (queueKey "qa")
      = [(QEntry.ok
            { task_type := "review_pr"
              repo_name := task.repo_name
              issue_number := task.issue_number
              project_path := task.project_path
              assigned_at := now
              status := "pending"
              assigned_agent := "qa"
              pr_number := some pr }, (task.issue_number : Rat))] := by
    unfold completeAndMaybeEnqueueQA
    rw [if_pos hAgent, hPr]
    simp [hPrPos, assign_pr_review, complete_task, getIssuePriority, hEmpty,
      zadd, zaddInsert, setKey_same]
  constructor
  · simp [queue_depth, hq, hEmpty]
  · refine ⟨{ task_type := "review_pr"
              repo_name := task.repo_name
              issue_number := task.issue_number
              project_path := task.project_path
              assigned_at := now
              status := "pending"
              assigned_agent := "qa"
              pr_number := some pr }, ?_, rfl, rfl, rfl, rfl⟩
    simp [claim_next_task, hq]

/-- Claim C1, witness: S2 — a backend task for `(acme, 5)` completes with
`pr_number = 42` against an empty store; the QA queue then holds exactly
one task, and claiming it yields a `review_pr` task carrying PR 42 and
issue 5. -/
theorem c1_qa_handoff_witness :
    queue_depth (completeAndMaybeEnqueueQA emptyStore "backend" c1Task
      c1Result 3) "qa" = queue_depth emptyStore "qa" + 1 ∧
    ∃ t, (claim_next_task
        (completeAndMaybeEnqueueQA emptyStore "backend" c1Task c1Result 3)
        "qa" 4).1 = some t ∧
      t.task_type = "review_pr" ∧ t.pr_number = some 42 ∧
      t.issue_number = c1Task.issue_number ∧
      t.repo_name = c1Task.repo_name :=
  c1_qa_handoff emptyStore "backend" c1Task c1Result 3 42 (Or.inl rfl) rfl
    (by decide) rfl

/-- Claim C7, counterexample: after `complete(acme, 5, _)` the tracking
record is `completed` (terminal), but a later `assign_issue` for the same
`(repository, issue)` — an operation of the assignment store — rewrites the
record to `pending`, moving it out of its terminal state. -/
theorem c7_counterexample :
    assignment_status c7s2 "acme" 5 = some "completed" ∧
    isTerminal (assignment_status c7s2 "acme" 5) ∧
    assignment_status c7s3 "acme" 5 = some "pending" ∧
    ¬ isTerminal (assignment_status c7s3 "acme" 5) := by
  decide

/-- Claim C7, amended: after `complete(r, i, _)` or `fail(r, i, _)` the
tracking record for `(r, i)` is in the corresponding terminal state
(`completed` / `failed`); a later operation of the assignment store keeps
the record terminal unless it enqueues (`assign_issue` /
`assign_pr_review`) or claims a task for the same `(repository, issue)`,
which resets the record to `pending` / `in_progress`. -/
theorem c7_terminal_states :
    (∀ (s : Store) (r : String) (i : Nat) (res : String) (now : Nat),
      assignment_status (complete_task s r i res now) r i
        = some "completed") ∧
    (∀ (s : Store) (r : String) (i : Nat) (err : String) (now : Nat),
      assignment_status (fail_task s r i err now) r i = some "failed") ∧
    (∀ (s : Store) (op : StoreOp) (r : String) (i : Nat),
      isTerminal (assignment_status s r i) → ¬ opTargets s op r i →
      isTerminal (assignment_status (applyOp s op) r i)) := by
  refine ⟨?_, ?_, ?_⟩
  · intro s r i res now
    simp [assignment_status, complete_task, setKey_same]
  · intro s r i err now
    simp [assignment_status, fail_task, setKey_same]
  · intro s op r i hterm hnt
    cases op with
    | assignOp r2 i2 a p n =>
      have hk : trackingKey r i ≠ trackingKey r2 i2 := by
        intro h
        exact hnt (by simpa [opTargets] using h.symm)
      simpa [applyOp, assign_issue, assignment_status,
        setKey_other _ _ _ _ hk] using hterm
    | reviewOp r2 pr i2 p n =>
      have hk : trackingKey r i ≠ trackingKey r2 i2 := by
        intro h
        exact hnt (by simpa [opTargets] using h.symm)
      simpa [applyOp, assign_pr_review, assignment_status,
        setKey_other _ _ _ _ hk] using hterm
    | claimOp a n =>
      rcases hq : s.queues (queueKey a) with _ | ⟨⟨m, p⟩, rest⟩
      · simpa [applyOp, claim_next_task, hq] using hterm
      · cases m with
        | ok t =>
          have hk : trackingKey r i
              ≠ trackingKey t.repo_name t.issue_number := by
            intro h
            refine hnt ?_
            refine ⟨t, ?_, h.symm⟩
            simp [claim_next_task, hq]
          simpa [applyOp, claim_next_task, hq, assignment_status,
            setKey_other _ _ _ _ hk] using hterm
        | bad str =>
          simpa [applyOp, claim_next_task, hq, assignment_status]
            using hterm
    | completeOp r2 i2 res n =>
      by_cases hk : trackingKey r i = trackingKey r2 i2
      · left
        simp [applyOp, complete_task, assignment_status, hk, setKey_same]
      · simpa [applyOp, complete_task, assignment_status,
          setKey_other _ _ _ _ hk] using hterm
    | failOp r2 i2 err n =>
      by_cases hk : trackingKey r i = trackingKey r2 i2
      · right
        simp [applyOp, fail_task, assignment_status, hk, setKey_same]
      · simpa [applyOp, fail_task, assignment_status,
          setKey_other _ _ _ _ hk] using hterm

/-- Claim C7, witness: the terminal-state writes at the concrete scenario
store, and preservation of the terminal state across a later operation that
targets a different `(repository, issue)`. -/
theorem c7_terminal_states_witness :
    assignment_status (complete_task c7s1 "acme" 5 "res" 2) "acme" 5
      = some "completed" ∧
    isTerminal (assignment_status
      (applyOp c7s2 (StoreOp.assignOp "other" 1 "backend" "" 3))
      "acme" 5) := by
  constructor
  · exact c7_terminal_states.1 c7s1 "acme" 5 "res" 2
  · refine c7_terminal_states.2.2 c7s2
      (StoreOp.assignOp "other" 1 "backend" "" 3) "acme" 5 (by decide) ?_
    simp only [opTargets]
    decide

theorem diagnose_and_fix_state (st : CCState) (e : String) :
    (diagnose_and_fix st e).healing = st.healing ∧
    (diagnose_and_fix st e).mainCalls = st.mainCalls ∧
    st.diagCalls ≤ (diagnose_and_fix st e).diagCalls ∧
    (diagnose_and_fix st e).diagCalls ≤ st.diagCalls + 1 ∧
    (diagnose_and_fix st e).sleeps = st.sleeps := by
  unfold diagnose_and_fix
  split_ifs <;> simp

theorem diagnose_and_fix_skip (st : CCState) (e : String)
    (h : classify_claude_error e = "auth_error" ∨
      classify_claude_error e = "permission") :
    diagnose_and_fix st e = st := by
  unfold diagnose_and_fix
  by_cases h1 : st.healing = true
  · rw [if_pos h1]
  · rw [if_neg h1, if_pos h]

theorem ccBump_healing (st : CCState) : (ccBump st).healing = st.healing :=
  rfl

theorem ccBump_mainCalls (st : CCState) :
    (ccBump st).mainCalls = st.mainCalls + 1 :=
  rfl

theorem ccBump_diagCalls (st : CCState) :
    (ccBump st).diagCalls = st.diagCalls :=
  rfl

theorem ccSleep_healing (st : CCState) (a : Nat) :
    (ccSleep st a).healing = st.healing :=
  rfl

theorem ccSleep_mainCalls (st : CCState) (a : Nat) :
    (ccSleep st a).mainCalls = st.mainCalls :=
  rfl

theorem ccSleep_diagCalls (st : CCState) (a : Nat) :
    (ccSleep st a).diagCalls = st.diagCalls :=
  rfl

theorem ccFailStep_state (st : CCState) (e : String) :
    (ccFailStep st e).healing = st.healing ∧
    (ccFailStep st e).mainCalls = st.mainCalls + 1 ∧
    st.diagCalls ≤ (ccFailStep st e).diagCalls ∧
    (ccFailStep st e).diagCalls ≤ st.diagCalls + 1 := by
  unfold ccFailStep
  split_ifs with hh
  · simp [ccBump]
  · have h := diagnose_and_fix_state (ccBump st) e
    rw [ccBump_healing, ccBump_mainCalls, ccBump_diagCalls] at h
    exact ⟨h.1, h.2.1, h.2.2.1, h.2.2.2.1⟩

theorem ccAttempt_bounds (env : Nat → CCOutcome) :
    ∀ (fuel attempt : Nat) (st : CCState),
    (ccAttempt env fuel attempt st).2.healing = st.healing ∧
    (ccAttempt env fuel attempt st).2.mainCalls ≤ st.mainCalls + fuel ∧
    (ccAttempt env fuel attempt st).2.diagCalls ≤ st.diagCalls + fuel ∧
    (st.diagCalls ≤ st.mainCalls →
      (ccAttempt env fuel attempt st).2.diagCalls
        ≤ (ccAttempt env fuel attempt st).2.mainCalls) := by
  intro fuel
  induction fuel with
  | zero =>
    intro attempt st
    simp [ccAttempt]
  | succ n ih =>
    intro attempt st
    unfold ccAttempt
    cases henv : env st.idx with
    | ok r =>
      exact ⟨ccBump_healing st, by rw [ccBump_mainCalls]; omega,
        by rw [ccBump_diagCalls]; omega,
        fun hdm => by rw [ccBump_diagCalls, ccBump_mainCalls]; omega⟩
    | fail e =>
      have hstep := ccFailStep_state st e
      by_cases hlt : attempt < 2
      · simp only [if_pos hlt]
        have hrec := ih (attempt + 1) (ccSleep (ccFailStep st e) attempt)
        rw [ccSleep_healing, ccSleep_mainCalls, ccSleep_diagCalls] at hrec
        refine ⟨?_, ?_, ?_, ?_⟩
        · rw [hrec.1, hstep.1]
        · have h := hrec.2.1
          omega
        · have h := hrec.2.2.1
          omega
        · intro hdm
          exact hrec.2.2.2 (by omega)
      · simp only [if_neg hlt]
        exact ⟨hstep.1, by omega, by omega, fun hdm => by omega⟩

/-- Claim C2, counterexample: with a generation CLI that fails every
invocation with a generic error, one outer `call_claude_code` makes three
diagnose-and-fix sub-invocations — one after each of the three failed
attempts, including the last — not at most two as claimed. -/
theorem c2_counterexample :
    (call_claude_code (fun _ => CCOutcome.fail "boom")).2.diagCalls = 3 ∧
    ¬ (call_claude_code (fun _ => CCOutcome.fail "boom")).2.diagCalls
        ≤ 2 := by
  decide

/-- Claim C2, amended: for every single outer call to the self-healing
envelope (`call_claude_code`), regardless of outcome: the generation CLI is
invoked at most three times for the main attempt, at most three
diagnose-and-fix sub-invocations are made (one after each failed attempt,
including the final one, so never more than the number of main
invocations), and the healing flag is false when the call returns or
raises. -/
theorem c2_healing_envelope_bounds (env : Nat → CCOutcome) :
    (call_claude_code env).2.mainCalls ≤ 3 ∧
    (call_claude_code env).2.diagCalls ≤ 3 ∧
    (call_claude_code env).2.diagCalls
      ≤ (call_claude_code env).2.mainCalls ∧
    (call_claude_code env).2.healing = false := by
  have h := ccAttempt_bounds env 3 0
    { idx := 0, healing := false, mainCalls := 0, diagCalls := 0,
      sleeps := [] }
  exact ⟨by simpa using h.2.1, by simpa using h.2.2.1,
    h.2.2.2 (by simp), by simpa using h.1⟩

/-- Claim C3: a generation-CLI failure whose error classifies as
`auth_error` or `permission` is never self-healed — the diagnose-and-fix
sub-invocation leaves the state untouched — while the outer call still
retries on the 2s/4s schedule and, after its three attempts, raises the
last failure.  The classifier is modelled from the spec
(`classify_claude_error` is not defined under `src/`). -/
theorem c3_auth_error_no_healing :
    (∀ (st : CCState) (e : String),
      classify_claude_error e = "auth_error" ∨
        classify_claude_error e = "permission" →
      diagnose_and_fix st e = st) ∧
    (∀ (env : Nat → CCOutcome) (e0 e1 e2 : String),
      env 0 = CCOutcome.fail e0 → env 1 = CCOutcome.fail e1 →
      env 2 = CCOutcome.fail e2 →
      (classify_claude_error e0 = "auth_error" ∨
        classify_claude_error e0 = "permission") →
      (classify_claude_error e1 = "auth_error" ∨
        classify_claude_error e1 = "permission") →
      (classify_claude_error e2 = "auth_error" ∨
        classify_claude_error e2 = "permission") →
      call_claude_code env
        = (Except.error e2,
           { idx := 3, healing := false, mainCalls := 3, diagCalls := 0,
             sleeps := [2, 4] })) := by
  constructor
  · intro st e h
    exact diagnose_and_fix_skip st e h
  · intro env e0 e1 e2 h0 h1 h2 hc0 hc1 hc2
    simp [call_claude_code, ccAttempt, ccFailStep, ccBump, ccSleep,
      h0, h1, h2, diagnose_and_fix_skip, hc0, hc1, hc2]

/-- Claim C3, witness: S3 — the string `Error 401 authentication failed`
classifies as `auth_error`; no diagnosis sub-invocation happens, the two
backoff delays 2s and 4s are slept, and the third failure is raised. -/
theorem c3_auth_error_no_healing_witness :
    diagnose_and_fix
        { idx := 1, healing := false, mainCalls := 1, diagCalls := 0,
          sleeps := [] } "Error 401 authentication failed"
      = { idx := 1, healing := false, mainCalls := 1, diagCalls := 0,
          sleeps := [] } ∧
    call_claude_code (fun _ => CCOutcome.fail "Error 401 authentication failed")
      = (Except.error "Error 401 authentication failed",
         { idx := 3, healing := false, mainCalls := 3, diagCalls := 0,
           sleeps := [2, 4] }) := by
  constructor
  · exact c3_auth_error_no_healing.1 _ _ (Or.inl (by decide))
  · exact c3_auth_error_no_healing.2 _ _ _ _ rfl rfl rfl
      (Or.inl (by decide)) (Or.inl (by decide)) (Or.inl (by decide))

/-- Claim C5, counterexample: S4 — two queued backend tasks complete
back-to-back and the deployment finisher fires exactly once (`c5daemon2`),
but a third task enqueued afterward that also completes does **not**
trigger the finisher a second time: the one-shot flag resets only when a
completion check observes a non-drained system, and no check runs between
the third enqueue and the third completion, so the count stays at 1 rather
than reaching 2. -/
theorem c5_counterexample :
    c5daemon1.deployCount = 0 ∧ c5daemon1.notified = false ∧
    c5daemon2.deployCount = 1 ∧ c5daemon2.notified = true ∧
    c5daemon3.deployCount = 1 ∧ ¬ c5daemon3.deployCount = 2 := by
  decide

/-- Claim C5, amended: the drain hook fires on a completion check exactly
when the check observes the drained condition (all queues empty and all
worker states in idle/polling/stopped) with the flag clear, and the check
sets the flag to the drained observation — so the flag resets only when a
later completion check observes a non-drained system, not when a queue
becomes non-empty.  Over any sequence of checks the hook therefore fires
exactly once per maximal run of consecutive drained observations; two
back-to-back completions with no new enqueues fire the finisher exactly
once, and a transition back to drained re-fires it only if some check
observed the intervening non-drained state. -/
theorem c5_drain_hook_semantics :
    (∀ d : Daemon,
      (checkAndTriggerDeploy d).deployCount
        = d.deployCount + (if drained d && !d.notified then 1 else 0) ∧
      (checkAndTriggerDeploy d).notified = drained d) ∧
    (∀ (flag : Bool) (obs : List Bool),
      (drainRun flag obs).2 = countBlocksFrom flag obs) ∧
    (c5daemon1.deployCount = 0 ∧ c5daemon2.deployCount = 1 ∧
     c5daemon3.deployCount = 1) := by
  refine ⟨?_, drainRun_eq_countBlocksFrom, by decide⟩
  intro d
  by_cases h1 : drained d = true
  · by_cases h2 : d.notified = true
    · constructor <;> simp [checkAndTriggerDeploy, h1, h2]
    · constructor <;> simp [checkAndTriggerDeploy, h1, h2]
  · constructor <;> simp [checkAndTriggerDeploy, h1]

/-- Claim C6, counterexample: S5 — run 100 is observed completed-failing
three times in a row (its fixes fail to push, so it is never marked
handled early).  The claim says the third observation does not invoke the
CLI, notifies, and marks the run handled; in fact the third observation
still invokes the generation CLI (attempt count 2 < 3 at entry), emits no
needs-attention notification, and leaves the run unhandled — the
needs-attention branch runs only on the fourth observation. -/
theorem c6_counterexample :
    c6m2.cliCalls = 2 ∧
    c6m3.cliCalls = 3 ∧
    ¬ Notice.needsAttention 100 ∈ c6m3.notices ∧
    ¬ 100 ∈ c6m3.handledRuns := by
  decide

/-- Claim C6, amended: for a CI run observed completed with conclusion
`failure`: while its fix-attempt count is below the maximum (3), each
observation performs the handle-failure cycle (fetch logs, generation-CLI
fix, push) and increments the attempt count, and the run is marked handled
within the cycle exactly when the fix is generated and pushed successfully;
an observation finding the count at the maximum performs no CLI call, marks
the run handled, and emits the needs-attention notification; any
observation of an already-handled run is a no-op, so the notification is
emitted exactly once.  Concretely, for a run whose fixes fail to push, the
first three observations invoke the CLI, the fourth notifies and marks the
run handled, and the fifth is a no-op. -/
theorem c6_ci_fix_cycle :
    (∀ (m : Monitor) (run : RunInfo) (env : CIEnv),
      run.id ∉ m.handledRuns → run.status = "completed" →
      run.conclusion = some "failure" →
      m.fixAttempts run.id < MAX_FIX_ATTEMPTS →
      (check_ci_status m run env).cliCalls = m.cliCalls + 1 ∧
      (check_ci_status m run env).fixAttempts run.id
        = m.fixAttempts run.id + 1 ∧
      (run.id ∈ (check_ci_status m run env).handledRuns ↔
        env.cliOk = true ∧ env.credsOk = true ∧ env.pushOk = true)) ∧
    (∀ (m : Monitor) (run : RunInfo) (env : CIEnv),
      run.id ∉ m.handledRuns → run.status = "completed" →
      run.conclusion = some "failure" →
      m.fixAttempts run.id ≥ MAX_FIX_ATTEMPTS →
      (check_ci_status m run env).cliCalls = m.cliCalls ∧
      run.id ∈ (check_ci_status m run env).handledRuns ∧
      (check_ci_status m run env).notices
        = m.notices ++ [Notice.needsAttention run.id]) ∧
    (∀ (m : Monitor) (run : RunInfo) (env : CIEnv),
      run.id ∈ m.handledRuns → check_ci_status m run env = m) ∧
    (c6m3.cliCalls = 3 ∧ 100 ∈ c6m4.handledRuns ∧
     c6m4.notices.count (Notice.needsAttention 100) = 1 ∧
     c6m5 = c6m4) := by
  refine ⟨?_, ?_, ?_, ?_⟩
  · intro m run env h1 h2 h3 h4
    unfold check_ci_status
    rw [if_neg h1, if_neg (not_not_intro h2), if_pos h3,
      if_neg (by omega : ¬ m.fixAttempts run.id ≥ MAX_FIX_ATTEMPTS)]
    rcases env with ⟨cliOk, credsOk, pushOk⟩
    cases cliOk <;> cases credsOk <;> cases pushOk <;>
      simp [handle_ci_failure, setKey_same, h1]
  · intro m run env h1 h2 h3 h4
    unfold check_ci_status
    rw [if_neg h1, if_neg (not_not_intro h2), if_pos h3, if_pos h4]
    simp
  · intro m run env h1
    unfold check_ci_status
    rw [if_pos h1]
  · refine ⟨by decide, by decide, by decide, rfl⟩

/-- Claim C6, amended, witness: the first observation of run 100 at the
initial monitor state performs the handle-failure cycle, and observing the
already-handled run at `c6m4` is a no-op. -/
theorem c6_ci_fix_cycle_witness :
    (check_ci_status monitorInit c6run c6env).cliCalls
      = monitorInit.cliCalls + 1 ∧
    check_ci_status c6m4 c6run c6env = c6m4 := by
  constructor
  · exact (c6_ci_fix_cycle.1 monitorInit c6run c6env (by decide) rfl rfl
      (by decide)).1
  · exact c6_ci_fix_cycle.2.2.1 c6m4 c6run c6env (by decide)

/-- Claim C8, counterexample: `save_project_metadata` overwrites the
metadata file in place, so with previous contents `A` and new record `B` a
concurrent reader can observe the truncated file — the empty string — which
is neither the complete old record nor the complete new one. -/
theorem c8_counterexample :
    some "" ∈ writeDirect (some "A") "B" ∧
    some "" ≠ (some "A" : Option String) ∧
    some "" ≠ (some "B" : Option String) := by
  decide

/-- Claim C8, amended: persisting a project's metadata overwrites the
per-project metadata file in place (`open` with mode `w` followed by
`json.dump`), not by writing to a temporary file and renaming: a concurrent
reader can observe a torn state (the truncated file, equal to neither the
complete old record nor the complete new one), and an interrupted write
after the truncation loses the previous contents.  The write-to-temp +
rename persistence the spec prescribes (modelled as `writeAtomic`) exposes
only the complete old or complete new record. -/
theorem c8_metadata_write_not_atomic (old : Option String)
    (newContent : String) (hOld : old ≠ some "") (hNew : newContent ≠ "") :
    (∃ st ∈ writeDirect old newContent, st ≠ old ∧ st ≠ some newContent) ∧
    (∀ st ∈ writeAtomic old newContent,
      st = old ∨ st = some newContent) := by
  constructor
  · refine ⟨some "", ?_, ?_, ?_⟩
    · simp [writeDirect]
    · intro h
      exact hOld h.symm
    · intro h
      exact hNew (Option.some.inj h).symm
  · intro st hst
    simpa [writeAtomic] using hst

/-- Claim C8, amended, witness: old contents `A`, new record `B`. -/
theorem c8_metadata_write_not_atomic_witness :
    (∃ st ∈ writeDirect (some "A") "B", st ≠ some "A" ∧ st ≠ some "B") ∧
    (∀ st ∈ writeAtomic (some "A") "B", st = some "A" ∨ st = some "B") :=
  c8_metadata_write_not_atomic (some "A") "B" (by decide) (by decide)

theorem findCatchAllIdx_append (hs : List IngressEntry) (c : IngressEntry)
    (rest : List IngressEntry) (hl : ∀ e ∈ hs, (e.hostname).isSome)
    (hc : c.hostname = none) :
    findCatchAllIdx (hs ++ c :: rest) = hs.length := by
  induction hs with
  | nil => simp [findCatchAllIdx, hc]
  | cons x xs ih =>
    have hx : (x.hostname).isSome := hl x (List.mem_cons_self _ _)
    rcases Option.isSome_iff_exists.mp hx with ⟨v, hv⟩
    have hrec := ih (fun e he => hl e (List.mem_cons_of_mem _ he))
    simp [findCatchAllIdx, hv, hrec]
    omega

theorem insertAt_append (l suffix : List IngressEntry) (e : IngressEntry) :
    insertAt (l ++ suffix) l.length e = l ++ e :: suffix := by
  induction l with
  | nil => cases suffix <;> simp [insertAt]
  | cons x xs ih => simp [insertAt, ih]

theorem updateIngress_wf (hs : List IngressEntry) (c : IngressEntry)
    (h : String) (p : Nat) (hc : c.hostname = none)
    (hl : ∀ e ∈ hs, (e.hostname).isSome) :
    updateIngress (hs ++ [c]) h p
      = hs.filter (fun e => e.hostname ≠ some h)
          ++ [newIngressEntry h p, c] := by
  unfold updateIngress
  have hfil : (hs ++ [c]).filter (fun e => decide (e.hostname ≠ some h))
      = hs.filter (fun e => decide (e.hostname ≠ some h)) ++ [c] := by
    rw [List.filter_append]
    congr 1
    rw [List.filter_cons]
    simp [hc]
  simp only [hfil]
  have hl2 : ∀ e ∈ hs.filter (fun e => decide (e.hostname ≠ some h)),
      (e.hostname).isSome :=
    fun e he => hl e (List.mem_of_mem_filter he)
  have hidx : findCatchAllIdx
      (hs.filter (fun e => decide (e.hostname ≠ some h)) ++ [c])
      = (hs.filter (fun e => decide (e.hostname ≠ some h))).length :=
    findCatchAllIdx_append _ c [] hl2 hc
  rw [hidx, insertAt_append]
  have hany : (hs.filter (fun e => decide (e.hostname ≠ some h))
      ++ newIngressEntry h p :: [c]).any (fun e => (e.hostname).isNone)
      = true := by
    simp only [List.any_append, List.any_cons]
    simp [hc]
  rw [if_pos hany]

/-- Claim C9, counterexample: starting from the ingress list
`[a → 3000, b → 4000, catch-all]`, updating `(a.example.com, 3001)` yields
`[b → 4000, a → 3001, catch-all]`: the updated hostname's entry is removed
and re-inserted immediately before the catch-all, not replaced in place —
the in-place result `[a → 3001, b → 4000, catch-all]` is not produced. -/
theorem c9_counterexample :
    updateIngress c9ingress "a.example.com" 3001
      = [{ hostname := some "b.example.com"
           service := "http://localhost:4000" },
         newIngressEntry "a.example.com" 3001, catchAll404] ∧
    updateIngress c9ingress "a.example.com" 3001
      ≠ [newIngressEntry "a.example.com" 3001,
         { hostname := some "b.example.com"
           service := "http://localhost:4000" },
         catchAll404] := by
  decide

/-- Claim C9, amended: for an ingress-config update on a well-formed file
(entries with hostnames followed by the catch-all last): an existing entry
for the hostname is removed and the fresh entry is inserted immediately
before the catch-all (so an updated hostname can move to the position just
before the catch-all; the other entries keep their relative order), a
hostname with no existing entry is likewise inserted immediately before the
catch-all, the catch-all remains last, and updating the same
`(hostname, port)` twice yields the same file as the first update.
Concretely (S6): from a missing `config.yml` with tunnel id `abc`, updating
`alpha.example.com` to port 3000 and then to 3001 leaves exactly one entry
for `alpha.example.com`, with service `http://localhost:3001`, followed by
the `http_status:404` catch-all, and repeating the update changes
nothing. -/
theorem c9_ingress_update (hs : List IngressEntry) (c : IngressEntry)
    (h : String) (p : Nat) (hc : c.hostname = none)
    (hl : ∀ e ∈ hs, (e.hostname).isSome) :
    updateIngress (hs ++ [c]) h p
      = hs.filter (fun e => e.hostname ≠ some h)
          ++ [newIngressEntry h p, c] ∧
    updateIngress (updateIngress (hs ++ [c]) h p) h p
      = updateIngress (hs ++ [c]) h p ∧
    (c9cfg1.ingress
        = [newIngressEntry "alpha.example.com" 3000, catchAll404] ∧
     c9cfg2.ingress
        = [newIngressEntry "alpha.example.com" 3001, catchAll404] ∧
     update_cloudflared_config (some c9cfg2) "abc" "alpha.example.com" 3001
        = c9cfg2) := by
  refine ⟨updateIngress_wf hs c h p hc hl, ?_, by decide⟩
  rw [updateIngress_wf hs c h p hc hl]
  have hl2 : ∀ e ∈ hs.filter (fun e => decide (e.hostname ≠ some h)),
      (e.hostname).isSome :=
    fun e he => hl e (List.mem_of_mem_filter he)
  have hsplit : hs.filter (fun e => decide (e.hostname ≠ some h))
      ++ [newIngressEntry h p, c]
      = (hs.filter (fun e => decide (e.hostname ≠ some h))
          ++ [newIngressEntry h p]) ++ [c] := by
    simp
  rw [hsplit, updateIngress_wf _ c h p hc ?side]
  case side =>
    intro e he
    rcases List.mem_append.mp he with he1 | he2
    · exact hl2 e he1
    · simp only [List.mem_singleton] at he2
      subst he2
      simp [newIngressEntry]
  have hkeep : (hs.filter (fun e => decide (e.hostname ≠ some h))).filter
      (fun e => decide (e.hostname ≠ some h))
      = hs.filter (fun e => decide (e.hostname ≠ some h)) :=
    List.filter_eq_self.mpr (fun e he => (List.mem_filter.mp he).2)
  have hdrop : ([newIngressEntry h p] : List IngressEntry).filter
      (fun e => decide (e.hostname ≠ some h)) = [] := by
    simp [newIngressEntry]
  rw [List.filter_append, hkeep, hdrop]
  simp

/-- Claim C9, amended, witness: the two-hostname well-formed ingress list
of the counterexample scenario, updated at `(a.example.com, 3001)`. -/
theorem c9_ingress_update_witness :
    updateIngress
        ([{ hostname := some "a.example.com"
            service := "http://localhost:3000" },
          { hostname := some "b.example.com"
            service := "http://localhost:4000" }] ++ [catchAll404])
        "a.example.com" 3001
      = [{ hostname := some "a.example.com"
           service := "http://localhost:3000" },
         { hostname := some "b.example.com"
           service := "http://localhost:4000" }].filter
          (fun e => e.hostname ≠ some "a.example.com")
          ++ [newIngressEntry "a.example.com" 3001, catchAll404] :=
  (c9_ingress_update
    [{ hostname := some "a.example.com"
       service := "http://localhost:3000" },
     { hostname := some "b.example.com"
       service := "http://localhost:4000" }]
    catchAll404 "a.example.com" 3001 rfl (by decide)).1

end AIPipeline
